import Mathlib

/-!
Verification of the floppy-device reconciliation logic of the Ansible module
`vmware_guest_floppy` (file `plugins/modules/vmware_guest_floppy.py`).

The module compares a desired floppy configuration (module parameters
`state`, `type`, `image_file`, `start_connected`) against a virtual
machine's current device list and emits a device change-set that is
submitted to the hypervisor via `ReconfigVM_Task`.

The shallow embedding below transcribes the device model and the functions
`PyVmomiDeviceHelper.create_sio_controller`, `PyVmomiDeviceHelper.create_floppy`,
`PyVmomiDeviceHelper.is_equal_floppy`, `PyVmomiHelper.remove_floppy`,
`PyVmomiHelper.configure_floppy` and `PyVmomiHelper.apply_floppy_op`.
Remote behaviour (task submission outcome, application of a submitted
change-set) is an explicit parameter, since those are external collaborators.
-/

namespace GuestFloppy

/-- Power state of a virtual machine (`vim.VirtualMachinePowerState`). -/
inductive PowerState
| poweredOn
| poweredOff
| suspended
deriving DecidableEq, Repr

/-- Backing of a virtual floppy device: `RemoteDeviceBackingInfo` or
`ImageBackingInfo` with its `fileName` (which pyVmomi allows to be unset,
hence `Option String`). -/
inductive Backing
| remote
| image (fileName : Option String)
deriving DecidableEq, Repr

/-- `vim.vm.device.VirtualDevice.ConnectInfo`. Freshly constructed
`ConnectInfo()` objects have all boolean fields falsy in pyVmomi. -/
structure ConnectInfo where
  allowGuestControl : Bool
  startConnected : Bool
  connected : Bool
deriving DecidableEq, Repr

/-- A `vim.vm.device.VirtualFloppy` device. `backing` is `none` when the
attribute was never assigned. -/
structure FloppyDevice where
  key : Int
  controllerKey : Int
  connectable : ConnectInfo
  backing : Option Backing
deriving DecidableEq, Repr

/-- A `vim.vm.device.VirtualSIOController`. Only the fields the module
touches are kept. A freshly constructed controller has `key = 0`. -/
structure SIOController where
  key : Int
  busNumber : Nat
deriving DecidableEq, Repr

/-- `vim.vm.device.VirtualDeviceSpec.Operation`. -/
inductive Operation
| add
| edit
| remove
deriving DecidableEq, Repr

/-- The device carried by a `VirtualDeviceSpec` in this module. -/
inductive SpecDevice
| sio (c : SIOController)
| floppy (f : FloppyDevice)
deriving DecidableEq, Repr

/-- `vim.vm.device.VirtualDeviceSpec`: an operation plus its device. -/
structure VirtualDeviceSpec where
  operation : Operation
  device : SpecDevice
deriving DecidableEq, Repr

/-- The slice of VM state the module reads: template flag
(`vm.config.template`), runtime power state, and the first floppy device
and first SIO controller of `vm.config.hardware.device` (which is what
`get_vm_floppy_device` and `get_vm_sio_device` return). -/
structure VM where
  template : Bool
  powerState : PowerState
  floppy : Option FloppyDevice
  sio : Option SIOController
deriving DecidableEq, Repr

/-- Module parameters relevant to the floppy operation. `type` and
`image_file` default to `None` in the argument spec, hence `Option`.
`state` is constrained by the argument spec to `present` or `absent`. -/
structure ModuleParams where
  state : String
  type : Option String
  image_file : Option String
  start_connected : Bool
deriving DecidableEq, Repr

/-- Accumulated reconfiguration state: `self.change_detected` and
`self.configspec.deviceChange`. -/
structure ConfigState where
  change_detected : Bool
  deviceChange : List VirtualDeviceSpec
deriving DecidableEq, Repr

/-- Python truthiness of an optional string (`not params.get(k, None)`
is true for both `None` and the empty string). -/
def truthy : Option String → Bool
  | none => false
  | some s => !(s == "")

/-- Whether the power state is `poweredOn`. -/
def isPoweredOn : PowerState → Bool
  | PowerState.poweredOn => true
  | _ => false

/-- `isinstance(backing, vim.vm.device.VirtualFloppy.RemoteDeviceBackingInfo)`. -/
def isRemoteBacking : Option Backing → Bool
  | some Backing.remote => true
  | _ => false

/-- `isinstance(backing, vim.vm.device.VirtualFloppy.ImageBackingInfo)`. -/
def isImageBacking : Option Backing → Bool
  | some (Backing.image _) => true
  | _ => false

/-- `backing.fileName`, read only after the `ImageBackingInfo` isinstance
guard succeeded. -/
def backingFileName : Option Backing → Option String
  | some (Backing.image f) => f
  | _ => none

/-- `PyVmomiDeviceHelper.is_equal_floppy` (lines 176-193). The Python
function falls through with an implicit `None` (falsy) for any other
`floppy_type`; that case is modelled as `false`. -/
def is_equal_floppy (power : PowerState) (floppy_device : FloppyDevice)
    (floppy_type : Option String) (flp_path : Option String) : Bool :=
  if floppy_type = some "none" then
    isRemoteBacking floppy_device.backing &&
      floppy_device.connectable.allowGuestControl &&
      !floppy_device.connectable.startConnected &&
      (!isPoweredOn power || !floppy_device.connectable.connected)
  else if floppy_type = some "client" then
    isRemoteBacking floppy_device.backing &&
      floppy_device.connectable.allowGuestControl &&
      floppy_device.connectable.startConnected &&
      (!isPoweredOn power || floppy_device.connectable.connected)
  else if floppy_type = some "flp" then
    isImageBacking floppy_device.backing &&
      (backingFileName floppy_device.backing == flp_path) &&
      floppy_device.connectable.allowGuestControl &&
      floppy_device.connectable.startConnected &&
      (!isPoweredOn power || floppy_device.connectable.connected)
  else false

/-- `PyVmomiDeviceHelper.create_sio_controller` (lines 146-154): an `add`
spec for a fresh SIO controller with `busNumber = 0` (fresh devices have
`key = 0` in pyVmomi). -/
def create_sio_controller : VirtualDeviceSpec :=
  { operation := Operation.add,
    device := SpecDevice.sio { key := 0, busNumber := 0 } }

/-- `PyVmomiDeviceHelper.create_floppy` (lines 156-174): an `add` spec for
a floppy attached to the controller key, `key = -1`, guest control allowed,
`startConnected = (floppy_type != "none")`, and backing chosen by type
(left unset for an unrecognised type). A fresh `ConnectInfo()` has
`connected` falsy. -/
def create_floppy (sio_key : Int) (floppy_type : Option String)
    (flp_path : Option String) : VirtualDeviceSpec :=
  { operation := Operation.add,
    device := SpecDevice.floppy
      { key := -1,
        controllerKey := sio_key,
        connectable :=
          { allowGuestControl := true,
            startConnected := !(floppy_type == some "none"),
            connected := false },
        backing :=
          if floppy_type = some "none" ∨ floppy_type = some "client" then
            some Backing.remote
          else if floppy_type = some "flp" then
            some (Backing.image flp_path)
          else none } }

/-- `PyVmomiHelper.get_vm_floppy_device` (lines 360-368): first floppy of
the VM's device list, `None` when `vm` is `None`. -/
def get_vm_floppy_device : Option VM → Option FloppyDevice
  | none => none
  | some vm => vm.floppy

/-- `PyVmomiHelper.get_vm_sio_device` (lines 350-358): first SIO controller
of the VM's device list, `None` when `vm` is `None`. -/
def get_vm_sio_device : Option VM → Option SIOController
  | none => none
  | some vm => vm.sio

/-- `vm_obj and vm_obj.config.template`. -/
def is_template : Option VM → Bool
  | none => false
  | some vm => vm.template

/-- `vm_obj and vm_obj.runtime.powerState == poweredOn`. -/
def vm_powered_on : Option VM → Bool
  | none => false
  | some vm => isPoweredOn vm.powerState

/-- `vm_obj.runtime.powerState`, as read inside `is_equal_floppy`. The
`none` case is unreachable in the module (`is_equal_floppy` is only called
on a device obtained from an existing VM). -/
def runtime_power : Option VM → PowerState
  | none => PowerState.poweredOff
  | some vm => vm.powerState

/-- `PyVmomiHelper.remove_floppy` (lines 287-302): no-op on templates and
when no floppy exists, otherwise append a `remove` spec and flag a change. -/
def remove_floppy (vm_obj : Option VM) (cfg : ConfigState) : ConfigState :=
  if is_template vm_obj then cfg
  else
    match get_vm_floppy_device vm_obj with
    | none => cfg
    | some floppy_device =>
      { change_detected := true,
        deviceChange := cfg.deviceChange ++
          [{ operation := Operation.remove,
             device := SpecDevice.floppy floppy_device }] }

/-- Overwrite the `connected` and `startConnected` flags of a floppy spec
(the powered-on branch of the creation path, lines 324-327). -/
def floppy_update_conn (s : VirtualDeviceSpec) (conn startConn : Bool) :
    VirtualDeviceSpec :=
  match s with
  | { operation := op, device := SpecDevice.floppy f } =>
    { operation := op,
      device := SpecDevice.floppy
        { f with connectable :=
            { f.connectable with connected := conn, startConnected := startConn } } }
  | s => s

/-- `PyVmomiHelper.configure_floppy` (lines 304-348). No-op on templates.
With no existing floppy: reuse or create the SIO controller, then build an
`add` spec; on a powered-on VM the connectable flags are overwritten
(`connected = (type != "none")`,
`startConnected = (type != "none" and start_connected)`). With an existing
non-equal floppy: rebuild backing and connectable from scratch
(`allowGuestControl = True`,
`startConnected = (type != "none" and start_connected)`, `connected` set to
`(type != "none")` only when powered on) and emit an `edit` spec. With an
existing equal floppy: emit nothing. -/
def configure_floppy (params : ModuleParams) (vm_obj : Option VM)
    (cfg : ConfigState) : ConfigState :=
  if is_template vm_obj then cfg
  else
    let floppy_type := params.type
    let flp_path := params.image_file
    match get_vm_floppy_device vm_obj with
    | none =>
      let step :=
        match get_vm_sio_device vm_obj with
        | some c => (cfg, c.key)
        | none =>
          ({ change_detected := true,
             deviceChange := cfg.deviceChange ++ [create_sio_controller] },
           (0 : Int))
      let fs := create_floppy step.2 floppy_type flp_path
      let fs :=
        if vm_powered_on vm_obj then
          floppy_update_conn fs (!(floppy_type == some "none"))
            (!(floppy_type == some "none") && params.start_connected)
        else fs
      { change_detected := true,
        deviceChange := step.1.deviceChange ++ [fs] }
    | some floppy_device =>
      if !(is_equal_floppy (runtime_power vm_obj) floppy_device floppy_type flp_path) then
        let d1 : FloppyDevice :=
          { floppy_device with
            backing :=
              if floppy_type = some "client" ∨ floppy_type = some "none" then
                some Backing.remote
              else if floppy_type = some "flp" then
                some (Backing.image flp_path)
              else floppy_device.backing,
            connectable :=
              { allowGuestControl := true,
                startConnected := !(floppy_type == some "none") && params.start_connected,
                connected := false } }
        let d2 :=
          if vm_powered_on vm_obj then
            { d1 with connectable :=
                { d1.connectable with connected := !(floppy_type == some "none") } }
          else d1
        { change_detected := true,
          deviceChange := cfg.deviceChange ++
            [{ operation := Operation.edit, device := SpecDevice.floppy d2 }] }
      else cfg

/-- Outcome of one module invocation. `failJson msg` is
`module.fail_json(msg=msg)`: the module result has `failed = true` and no
`changed = true` entry (Ansible reports `changed` as false when absent).
`result changed failed msg` is a returned result dictionary.
`assertionError` models the `raise AssertionError()` branch for a state
that is neither `present` nor `absent` (unreachable through the argument
spec). -/
inductive ApplyOutcome
| failJson (msg : String)
| result (changed : Bool) (failed : Bool) (msg : Option String)
| assertionError
deriving DecidableEq, Repr

/-- Remote behaviour of `vm.ReconfigVM_Task` followed by `wait_for_task`:
the call may raise `vim.fault.RestrictedVersion` at submit time, or the
task may terminate in the `error` state with a message, or succeed. -/
inductive SubmitResult
| success
| taskError (msg : String)
| restrictedVersion (msg : String)
deriving DecidableEq, Repr

/-- Result of `apply_floppy_op` together with the change-set that was sent
to the remote mutation endpoint (`none` when `ReconfigVM_Task` was never
called). -/
structure ApplyResult where
  outcome : ApplyOutcome
  submitted : Option (List VirtualDeviceSpec)
deriving DecidableEq, Repr

/-- Intermediate result of the state dispatch and validation of
`apply_floppy_op` (lines 376-392), before any remote call. -/
inductive ReconcileStep
| failed (msg : String)
| assertion
| ok (cfg : ConfigState)
deriving DecidableEq, Repr

/-- The validation and reconciliation prefix of `apply_floppy_op`
(lines 372-392): dispatch on `state`; on `present`, fail fast when `type`
is falsy, when `type` is not one of `none`/`client`/`flp`, or when `type`
equals the literal `"image_file"` while `image_file` is falsy (note the
source compares against `"image_file"`, not `"flp"`); otherwise run
`configure_floppy`. On `absent`, run `remove_floppy`. -/
def reconcile_step (params : ModuleParams) (vm : VM) : ReconcileStep :=
  let cfg0 : ConfigState := { change_detected := false, deviceChange := [] }
  if params.state = "absent" then
    ReconcileStep.ok (remove_floppy (some vm) cfg0)
  else if params.state = "present" then
    if !(truthy params.type) then
      ReconcileStep.failed "type is mandatory"
    else if ¬(params.type = some "none" ∨ params.type = some "client" ∨
              params.type = some "flp") then
      ReconcileStep.failed "type is not valid. Permitted values: none, client, image_file"
    else if params.type = some "image_file" ∧ ¬truthy params.image_file then
      ReconcileStep.failed "image_file is mandatory in case type is flp"
    else
      ReconcileStep.ok (configure_floppy params (some vm) cfg0)
  else ReconcileStep.assertion

/-- `PyVmomiHelper.apply_floppy_op` (lines 370-413): run validation and
reconciliation; if no change was detected return
`{changed: False, failed: False}` without any remote call; otherwise call
`ReconfigVM_Task` — a `RestrictedVersion` fault becomes `fail_json` with
the fault message embedded in a fixed wrapper, a task ending in `error`
returns `{changed: True, failed: True, msg: task.info.error.msg}`, and
success returns `{changed: True, failed: False}`. -/
def apply_floppy_op (params : ModuleParams) (vm : VM)
    (submit : SubmitResult) : ApplyResult :=
  match reconcile_step params vm with
  | ReconcileStep.failed m => { outcome := ApplyOutcome.failJson m, submitted := none }
  | ReconcileStep.assertion => { outcome := ApplyOutcome.assertionError, submitted := none }
  | ReconcileStep.ok cfg =>
    if cfg.change_detected then
      match submit with
      | SubmitResult.restrictedVersion m =>
        { outcome := ApplyOutcome.failJson
            ("Failed to reconfigure virtual machine due to product versioning restrictions: " ++ m),
          submitted := some cfg.deviceChange }
      | SubmitResult.taskError m =>
        { outcome := ApplyOutcome.result true true (some m),
          submitted := some cfg.deviceChange }
      | SubmitResult.success =>
        { outcome := ApplyOutcome.result true false none,
          submitted := some cfg.deviceChange }
    else { outcome := ApplyOutcome.result false false none, submitted := none }

/-- The `changed` flag of an outcome as Ansible reports it (`fail_json`
without an explicit `changed` entry reports `changed = false`). -/
def changedOf : ApplyOutcome → Bool
  | ApplyOutcome.result c _ _ => c
  | _ => false

/-- The `failed` flag of an outcome (`fail_json` always sets it). -/
def failedOf : ApplyOutcome → Bool
  | ApplyOutcome.result _ f _ => f
  | ApplyOutcome.failJson _ => true
  | ApplyOutcome.assertionError => true

/-- Modelled from the spec: the external task submitter / remote
reconfiguration endpoint (`submitChangeSet`, §6) applies the operations of
a submitted change-set in order: an added SIO controller becomes the VM's
controller, an added or edited floppy becomes the VM's floppy device, a
removed floppy is detached. -/
def applySpec (vm : VM) (s : VirtualDeviceSpec) : VM :=
  match s.operation, s.device with
  | Operation.add, SpecDevice.sio c => { vm with sio := some c }
  | Operation.add, SpecDevice.floppy f => { vm with floppy := some f }
  | Operation.edit, SpecDevice.floppy f => { vm with floppy := some f }
  | Operation.remove, SpecDevice.floppy _ => { vm with floppy := none }
  | _, _ => vm

/-- Modelled from the spec: a whole change-set applied in order. -/
def applyChangeSet (vm : VM) (l : List VirtualDeviceSpec) : VM :=
  l.foldl applySpec vm

/-- One module invocation with a successful submission, paired with the VM
state after the remote applied the submitted change-set (unchanged when
nothing was submitted). -/
def run_apply (params : ModuleParams) (vm : VM) : ApplyResult × VM :=
  let r := apply_floppy_op params vm SubmitResult.success
  match r.submitted with
  | some specs => (r, applyChangeSet vm specs)
  | none => (r, vm)

/-- The parameters of a default invocation of `main` with `state=present`:
the argument spec gives `type` the default `None` (not the string
`"none"`), `image_file` the default `None` and `start_connected` the
default `False`. -/
def default_invocation_params : ModuleParams :=
  { state := "present", type := none, image_file := none, start_connected := false }

/-- The floppy device built by the creation path of `configure_floppy` for
a VM that is not powered on (no connectable override). -/
def created_floppy_off (p : ModuleParams) (sio_key : Int) : FloppyDevice :=
  { key := -1,
    controllerKey := sio_key,
    connectable :=
      { allowGuestControl := true,
        startConnected := !(p.type == some "none"),
        connected := false },
    backing :=
      if p.type = some "none" ∨ p.type = some "client" then some Backing.remote
      else if p.type = some "flp" then some (Backing.image p.image_file)
      else none }

/-- The floppy device built by the creation path of `configure_floppy` for
a powered-on VM (connectable flags overridden per lines 324-327). -/
def created_floppy_on (p : ModuleParams) (sio_key : Int) : FloppyDevice :=
  { key := -1,
    controllerKey := sio_key,
    connectable :=
      { allowGuestControl := true,
        startConnected := !(p.type == some "none") && p.start_connected,
        connected := !(p.type == some "none") },
    backing :=
      if p.type = some "none" ∨ p.type = some "client" then some Backing.remote
      else if p.type = some "flp" then some (Backing.image p.image_file)
      else none }

/-- The device the edit path of `configure_floppy` builds (lines 330-344),
with `powered` the powered-on override flag. -/
def edited_floppy (p : ModuleParams) (d : FloppyDevice) (powered : Bool) : FloppyDevice :=
  { key := d.key,
    controllerKey := d.controllerKey,
    connectable :=
      { allowGuestControl := true,
        startConnected := !(p.type == some "none") && p.start_connected,
        connected := if powered then !(p.type == some "none") else false },
    backing :=
      if p.type = some "client" ∨ p.type = some "none" then some Backing.remote
      else if p.type = some "flp" then some (Backing.image p.image_file)
      else d.backing }

/-- Sample parameters for the C1 witness: type `none`. -/
def c1_params : ModuleParams :=
  { state := "present", type := some "none", image_file := none, start_connected := false }

/-- Sample equal device for the C1 witness. -/
def c1_device : FloppyDevice :=
  { key := 3, controllerKey := 7,
    connectable := { allowGuestControl := true, startConnected := false, connected := false },
    backing := some Backing.remote }

/-- Sample VM for the C1 witness. -/
def c1_vm : VM :=
  { template := false, powerState := PowerState.poweredOff,
    floppy := some c1_device, sio := some { key := 7, busNumber := 0 } }

/-- Parameters exercising the inert image-path validation: `type = "flp"`
with `image_file` omitted. -/
def c3_params : ModuleParams :=
  { state := "present", type := some "flp", image_file := none, start_connected := true }

/-- A plain powered-off VM with an SIO controller and no floppy. -/
def c3_vm : VM :=
  { template := false, powerState := PowerState.poweredOff, floppy := none,
    sio := some { key := 5, busNumber := 0 } }

/-- Parameters for the C4 counterexample: kind `client` with
`start_connected = false`. -/
def c4_params : ModuleParams :=
  { state := "present", type := some "client", image_file := none, start_connected := false }

/-- VM for the C4 counterexample: powered on, no floppy device, with an
SIO controller. -/
def c4_vm : VM :=
  { template := false, powerState := PowerState.poweredOn, floppy := none,
    sio := some { key := 7, busNumber := 0 } }

/-- Parameters and VM that make the reconciliation detect a change, used by
the C8 theorems. -/
def c8_params : ModuleParams :=
  { state := "present", type := some "client", image_file := none, start_connected := true }

/-- VM for the C8 theorems: powered off, no floppy, has a controller. -/
def c8_vm : VM :=
  { template := false, powerState := PowerState.poweredOff, floppy := none,
    sio := some { key := 7, busNumber := 0 } }

/-- The change-set `reconcile_step` accumulates for `c8_params` on `c8_vm`. -/
def reconcile_change_set_c8 : List VirtualDeviceSpec :=
  [{ operation := Operation.add,
     device := SpecDevice.floppy
       { key := -1, controllerKey := 7,
         connectable :=
           { allowGuestControl := true, startConnected := true, connected := false },
         backing := some Backing.remote } }]

/-- Helper: a present-state pass over an existing equal device changes
nothing. -/
lemma noop_of_equal_aux (p : ModuleParams) (vm : VM) (d : FloppyDevice)
    (hd : vm.floppy = some d)
    (he : is_equal_floppy vm.powerState d p.type p.image_file = true) :
    configure_floppy p (some vm) { change_detected := false, deviceChange := [] } =
      { change_detected := false, deviceChange := [] } := by
  cases htmp : vm.template
  all_goals
    simp [configure_floppy, is_template, get_vm_floppy_device, hd, runtime_power, he, htmp]

/-- Helper: with `state=present` and a valid `type`, validation passes and
the accumulated change-set is the one `configure_floppy` computes. -/
lemma reconcile_step_present_valid (p : ModuleParams) (vm : VM) (t : String)
    (hstate : p.state = "present") (ht : p.type = some t)
    (hvalid : t = "none" ∨ t = "client" ∨ t = "flp") :
    reconcile_step p vm =
      ReconcileStep.ok
        (configure_floppy p (some vm) { change_detected := false, deviceChange := [] }) := by
  rcases hvalid with h | h | h
  all_goals subst h; simp [reconcile_step, hstate, ht, truthy]

/-- Helper: a run against a VM whose floppy already passes the equivalence
check reports no change. -/
lemma second_run_not_changed (p : ModuleParams) (vm2 : VM) (t : String) (d2 : FloppyDevice)
    (hstate : p.state = "present") (ht : p.type = some t)
    (hvalid : t = "none" ∨ t = "client" ∨ t = "flp")
    (hd : vm2.floppy = some d2)
    (he : is_equal_floppy vm2.powerState d2 p.type p.image_file = true) :
    changedOf (run_apply p vm2).1.outcome = false := by
  have h0 := noop_of_equal_aux p vm2 d2 hd he
  have hrs := reconcile_step_present_valid p vm2 t hstate ht hvalid
  rw [h0] at hrs
  simp [run_apply, apply_floppy_op, hrs, changedOf]

/-- Helper: the edit path emits exactly one edit spec carrying
`edited_floppy`. -/
lemma configure_edit_eq (p : ModuleParams) (vm : VM) (d : FloppyDevice)
    (htmp : vm.template = false) (hfl : vm.floppy = some d)
    (hne : is_equal_floppy vm.powerState d p.type p.image_file = false) :
    configure_floppy p (some vm) { change_detected := false, deviceChange := [] } =
      { change_detected := true,
        deviceChange :=
          [{ operation := Operation.edit,
             device := SpecDevice.floppy
               (edited_floppy p d (isPoweredOn vm.powerState)) }] } := by
  cases hpw : isPoweredOn vm.powerState
  all_goals
    simp [configure_floppy, is_template, get_vm_floppy_device, htmp, hfl,
          runtime_power, hne, vm_powered_on, hpw, edited_floppy]

/-- Helper: the create path without an existing controller emits the
controller spec followed by the floppy spec. -/
lemma configure_create_nosio (p : ModuleParams) (vm : VM)
    (htmp : vm.template = false) (hfl : vm.floppy = none) (hsi : vm.sio = none) :
    configure_floppy p (some vm) { change_detected := false, deviceChange := [] } =
      { change_detected := true,
        deviceChange :=
          [create_sio_controller,
           { operation := Operation.add,
             device := SpecDevice.floppy
               (if isPoweredOn vm.powerState then created_floppy_on p 0
                else created_floppy_off p 0) }] } := by
  cases hpw : isPoweredOn vm.powerState
  all_goals
    simp [configure_floppy, is_template, get_vm_floppy_device, get_vm_sio_device,
          htmp, hfl, hsi, vm_powered_on, hpw, create_floppy, create_sio_controller,
          floppy_update_conn, created_floppy_on, created_floppy_off]

/-- Helper: the create path reusing an existing controller emits a single
floppy spec referencing its key. -/
lemma configure_create_sio (p : ModuleParams) (vm : VM) (c : SIOController)
    (htmp : vm.template = false) (hfl : vm.floppy = none) (hsi : vm.sio = some c) :
    configure_floppy p (some vm) { change_detected := false, deviceChange := [] } =
      { change_detected := true,
        deviceChange :=
          [{ operation := Operation.add,
             device := SpecDevice.floppy
               (if isPoweredOn vm.powerState then created_floppy_on p c.key
                else created_floppy_off p c.key) }] } := by
  cases hpw : isPoweredOn vm.powerState
  all_goals
    simp [configure_floppy, is_template, get_vm_floppy_device, get_vm_sio_device,
          htmp, hfl, hsi, vm_powered_on, hpw, create_floppy, create_sio_controller,
          floppy_update_conn, created_floppy_on, created_floppy_off]

/-- Helper: `isPoweredOn` reflects equality with `poweredOn`. -/
lemma eq_poweredOn_of_isPoweredOn {pw : PowerState} (h : isPoweredOn pw = true) :
    pw = PowerState.poweredOn := by
  cases pw <;> simp [isPoweredOn] at h ⊢

/-- Helper: the device created for a non-powered-on VM passes the
equivalence check for every valid type. -/
lemma is_equal_created_off (p : ModuleParams) (t : String) (k : Int) (pw : PowerState)
    (ht : p.type = some t) (hvalid : t = "none" ∨ t = "client" ∨ t = "flp")
    (hpw : isPoweredOn pw = false) :
    is_equal_floppy pw (created_floppy_off p k) p.type p.image_file = true := by
  rcases hvalid with h | h | h
  all_goals subst h
  all_goals
    simp [is_equal_floppy, created_floppy_off, isRemoteBacking, isImageBacking,
          backingFileName, ht, hpw]

/-- Helper: the device created for a powered-on VM passes the equivalence
check when the type is `none` or `start_connected` is true. -/
lemma is_equal_created_on (p : ModuleParams) (t : String) (k : Int) (pw : PowerState)
    (ht : p.type = some t) (hvalid : t = "none" ∨ t = "client" ∨ t = "flp")
    (hside2 : t = "none" ∨ p.start_connected = true) :
    is_equal_floppy pw (created_floppy_on p k) p.type p.image_file = true := by
  rcases hvalid with h | h | h
  all_goals subst h
  · simp [is_equal_floppy, created_floppy_on, isRemoteBacking, isImageBacking,
          backingFileName, ht]
  · rcases hside2 with h2 | h2
    · exact absurd h2 (by decide)
    · simp [is_equal_floppy, created_floppy_on, isRemoteBacking, isImageBacking,
            backingFileName, ht, h2]
  · rcases hside2 with h2 | h2
    · exact absurd h2 (by decide)
    · simp [is_equal_floppy, created_floppy_on, isRemoteBacking, isImageBacking,
            backingFileName, ht, h2]

/-- Helper: the edited device passes the equivalence check when the type is
`none` or `start_connected` is true. -/
lemma is_equal_edited (p : ModuleParams) (t : String) (d : FloppyDevice) (pw : PowerState)
    (ht : p.type = some t) (hvalid : t = "none" ∨ t = "client" ∨ t = "flp")
    (hside2 : t = "none" ∨ p.start_connected = true) :
    is_equal_floppy pw (edited_floppy p d (isPoweredOn pw)) p.type p.image_file = true := by
  rcases hvalid with h | h | h
  all_goals subst h
  · cases hpw : isPoweredOn pw
    all_goals
      simp [is_equal_floppy, edited_floppy, isRemoteBacking, isImageBacking,
            backingFileName, ht, hpw]
  · rcases hside2 with h2 | h2
    · exact absurd h2 (by decide)
    · cases hpw : isPoweredOn pw
      all_goals
        simp [is_equal_floppy, edited_floppy, isRemoteBacking, isImageBacking,
              backingFileName, ht, hpw, h2]
  · rcases hside2 with h2 | h2
    · exact absurd h2 (by decide)
    · cases hpw : isPoweredOn pw
      all_goals
        simp [is_equal_floppy, edited_floppy, isRemoteBacking, isImageBacking,
              backingFileName, ht, hpw, h2]

/-- C2: `is_equal_floppy` returns true exactly under the per-kind rules of
the spec: for `none` iff the backing is remote-redirect, guest control is
allowed, `startConnected` is false and (the host is not powered on or the
device is not connected); for `client` the same with `startConnected` true
and `connected` true when powered on; for `flp` iff the backing is an image
whose path equals the desired image path, guest control is allowed,
`startConnected` is true and (not powered on or connected). It is a pure
Lean function, hence side-effect free. -/
theorem is_equal_floppy_per_kind_rules (power : PowerState) (d : FloppyDevice)
    (path : Option String) :
    (is_equal_floppy power d (some "none") path = true ↔
      (isRemoteBacking d.backing = true ∧
       d.connectable.allowGuestControl = true ∧
       d.connectable.startConnected = false ∧
       (power ≠ PowerState.poweredOn ∨ d.connectable.connected = false))) ∧
    (is_equal_floppy power d (some "client") path = true ↔
      (isRemoteBacking d.backing = true ∧
       d.connectable.allowGuestControl = true ∧
       d.connectable.startConnected = true ∧
       (power ≠ PowerState.poweredOn ∨ d.connectable.connected = true))) ∧
    (is_equal_floppy power d (some "flp") path = true ↔
      (d.backing = some (Backing.image path) ∧
       d.connectable.allowGuestControl = true ∧
       d.connectable.startConnected = true ∧
       (power ≠ PowerState.poweredOn ∨ d.connectable.connected = true))) := by
  obtain ⟨k, ck, ⟨agc, sc, c⟩, b⟩ := d
  refine ⟨?_, ?_, ?_⟩ <;>
    cases power <;>
    rcases b with _ | b <;>
    first
      | (simp [is_equal_floppy, isRemoteBacking, isImageBacking, backingFileName,
               isPoweredOn] <;> tauto)
      | (rcases b with _ | f <;>
          simp [is_equal_floppy, isRemoteBacking, isImageBacking, backingFileName,
                isPoweredOn] <;> tauto)

/-- C1: when the equivalence check accepts the current device, a
present-state reconciliation pass emits nothing: the accumulated change-set
stays empty and no change is flagged. -/
theorem configure_floppy_noop_of_equal (p : ModuleParams) (vm : VM) (d : FloppyDevice)
    (hd : vm.floppy = some d)
    (he : is_equal_floppy vm.powerState d p.type p.image_file = true) :
    configure_floppy p (some vm) { change_detected := false, deviceChange := [] } =
      { change_detected := false, deviceChange := [] } :=
  noop_of_equal_aux p vm d hd he

/-- Witness for C1 at a concrete equal device. -/
theorem configure_floppy_noop_of_equal_witness :
    configure_floppy c1_params (some c1_vm) { change_detected := false, deviceChange := [] } =
      { change_detected := false, deviceChange := [] } :=
  configure_floppy_noop_of_equal c1_params c1_vm c1_device rfl (by decide)

/-- C3: with kind `flp` and no `image_file`, `apply_floppy_op` does NOT
fail validation: the guard compares `type` against the literal
`"image_file"` instead of `"flp"`, so it never fires; the module builds an
image-backed floppy with an unset `fileName` and submits a change-set to
the remote endpoint, reporting `{changed: true, failed: false}`. -/
theorem flp_without_image_submits_anyway :
    (apply_floppy_op c3_params c3_vm SubmitResult.success).submitted =
      some [{ operation := Operation.add,
              device := SpecDevice.floppy
                { key := -1, controllerKey := 5,
                  connectable :=
                    { allowGuestControl := true, startConnected := true,
                      connected := false },
                  backing := some (Backing.image none) } }] ∧
    (apply_floppy_op c3_params c3_vm SubmitResult.success).outcome =
      ApplyOutcome.result true false none := by
  constructor
  · rfl
  · rfl

/-- Counterexample to C4 as stated: with kind `client`,
`start_connected = false` and a powered-on VM with no floppy device, the
first run reports `changed = true` but so does the second run — the device
the first run creates has `startConnected = false`, which the equivalence
check rejects, so every subsequent run emits another edit. -/
theorem apply_twice_still_changed :
    changedOf (run_apply c4_params c4_vm).1.outcome = true ∧
    changedOf (run_apply c4_params (run_apply c4_params c4_vm).2).1.outcome = true := by
  constructor
  · rfl
  · rfl

/-- C4 amended: with a valid present-state descriptor against a
non-template VM whose current state is not already equivalent, two
successive applies (the remote applying each submitted change-set) report
`changed = true` then `changed = false`, provided the type is `none`, or
`start_connected` is true, or there is no existing floppy device and the
VM is not powered on. Outside that proviso the second run can report
`changed = true` again. -/
theorem apply_twice_converges (p : ModuleParams) (vm : VM) (t : String)
    (hstate : p.state = "present") (ht : p.type = some t)
    (hvalid : t = "none" ∨ t = "client" ∨ t = "flp")
    (htmp : vm.template = false)
    (hneq : ∀ d, vm.floppy = some d →
      is_equal_floppy vm.powerState d p.type p.image_file = false)
    (hside : t = "none" ∨ p.start_connected = true ∨
      (vm.floppy = none ∧ vm.powerState ≠ PowerState.poweredOn)) :
    changedOf (run_apply p vm).1.outcome = true ∧
    failedOf (run_apply p vm).1.outcome = false ∧
    changedOf (run_apply p (run_apply p vm).2).1.outcome = false := by
  have hrs := reconcile_step_present_valid p vm t hstate ht hvalid
  cases hfl : vm.floppy with
  | some d =>
    have hside2 : t = "none" ∨ p.start_connected = true := by
      rcases hside with h | h | ⟨h1, h2⟩
      · exact Or.inl h
      · exact Or.inr h
      · rw [hfl] at h1; cases h1
    have hne := hneq d hfl
    have hcfg := configure_edit_eq p vm d htmp hfl hne
    rw [hcfg] at hrs
    have hap : apply_floppy_op p vm SubmitResult.success =
        { outcome := ApplyOutcome.result true false none,
          submitted := some
            [{ operation := Operation.edit,
               device := SpecDevice.floppy
                 (edited_floppy p d (isPoweredOn vm.powerState)) }] } := by
      simp [apply_floppy_op, hrs]
    have hrun : run_apply p vm =
        ({ outcome := ApplyOutcome.result true false none,
           submitted := some
             [{ operation := Operation.edit,
                device := SpecDevice.floppy
                  (edited_floppy p d (isPoweredOn vm.powerState)) }] },
         { vm with floppy := some (edited_floppy p d (isPoweredOn vm.powerState)) }) := by
      simp [run_apply, hap, applyChangeSet, applySpec]
    rw [hrun]
    refine ⟨rfl, rfl, ?_⟩
    exact second_run_not_changed p _ t (edited_floppy p d (isPoweredOn vm.powerState))
      hstate ht hvalid rfl
      (is_equal_edited p t d vm.powerState ht hvalid hside2)
  | none =>
    have hdev : ∀ k : Int,
        is_equal_floppy vm.powerState
          (if isPoweredOn vm.powerState then created_floppy_on p k
           else created_floppy_off p k) p.type p.image_file = true := by
      intro k
      cases hpw : isPoweredOn vm.powerState
      · simpa [hpw] using is_equal_created_off p t k vm.powerState ht hvalid hpw
      · have hside2 : t = "none" ∨ p.start_connected = true := by
          rcases hside with h | h | ⟨h1, h2⟩
          · exact Or.inl h
          · exact Or.inr h
          · exact absurd (eq_poweredOn_of_isPoweredOn hpw) h2
        simpa [hpw] using is_equal_created_on p t k vm.powerState ht hvalid hside2
    cases hsi : vm.sio with
    | none =>
      have hcfg := configure_create_nosio p vm htmp hfl hsi
      rw [hcfg] at hrs
      have hap : apply_floppy_op p vm SubmitResult.success =
          { outcome := ApplyOutcome.result true false none,
            submitted := some
              [create_sio_controller,
               { operation := Operation.add,
                 device := SpecDevice.floppy
                   (if isPoweredOn vm.powerState then created_floppy_on p 0
                    else created_floppy_off p 0) }] } := by
        simp [apply_floppy_op, hrs]
      have hrun : run_apply p vm =
          ({ outcome := ApplyOutcome.result true false none,
             submitted := some
               [create_sio_controller,
                { operation := Operation.add,
                  device := SpecDevice.floppy
                    (if isPoweredOn vm.powerState then created_floppy_on p 0
                     else created_floppy_off p 0) }] },
           { vm with
             sio := some { key := 0, busNumber := 0 },
             floppy := some
               (if isPoweredOn vm.powerState then created_floppy_on p 0
                else created_floppy_off p 0) }) := by
        simp [run_apply, hap, applyChangeSet, applySpec, create_sio_controller]
      rw [hrun]
      exact ⟨rfl, rfl,
        second_run_not_changed p _ t _ hstate ht hvalid rfl (hdev 0)⟩
    | some c =>
      have hcfg := configure_create_sio p vm c htmp hfl hsi
      rw [hcfg] at hrs
      have hap : apply_floppy_op p vm SubmitResult.success =
          { outcome := ApplyOutcome.result true false none,
            submitted := some
              [{ operation := Operation.add,
                 device := SpecDevice.floppy
                   (if isPoweredOn vm.powerState then created_floppy_on p c.key
                    else created_floppy_off p c.key) }] } := by
        simp [apply_floppy_op, hrs]
      have hrun : run_apply p vm =
          ({ outcome := ApplyOutcome.result true false none,
             submitted := some
               [{ operation := Operation.add,
                  device := SpecDevice.floppy
                    (if isPoweredOn vm.powerState then created_floppy_on p c.key
                     else created_floppy_off p c.key) }] },
           { vm with
             floppy := some
               (if isPoweredOn vm.powerState then created_floppy_on p c.key
                else created_floppy_off p c.key) }) := by
        simp [run_apply, hap, applyChangeSet, applySpec]
      rw [hrun]
      exact ⟨rfl, rfl,
        second_run_not_changed p _ t _ hstate ht hvalid rfl (hdev c.key)⟩

/-- Witness for the amended C4: kind `client` with `start_connected = true`
against a powered-on VM with no floppy. -/
theorem apply_twice_converges_witness :
    changedOf (run_apply c8_params c4_vm).1.outcome = true ∧
    failedOf (run_apply c8_params c4_vm).1.outcome = false ∧
    changedOf (run_apply c8_params (run_apply c8_params c4_vm).2).1.outcome = false :=
  apply_twice_converges c8_params c4_vm "client" rfl rfl (Or.inr (Or.inl rfl)) rfl
    (fun d h => nomatch h) (Or.inr (Or.inl rfl))

/-- C5: if validation passes and the reconciliation pass flags no change,
`apply_floppy_op` returns `{changed: false, failed: false}` and never
contacts the remote mutation endpoint; in particular, `state=absent` on a
VM with no floppy device does so. -/
theorem apply_no_ops_no_submit (p : ModuleParams) (vm : VM) (s : SubmitResult)
    (cfg : ConfigState) :
    (reconcile_step p vm = ReconcileStep.ok cfg → cfg.change_detected = false →
      apply_floppy_op p vm s =
        { outcome := ApplyOutcome.result false false none, submitted := none }) ∧
    (p.state = "absent" → vm.floppy = none →
      apply_floppy_op p vm s =
        { outcome := ApplyOutcome.result false false none, submitted := none }) := by
  constructor
  · intro h hc
    simp [apply_floppy_op, h, hc]
  · intro hs hf
    cases htmp : vm.template
    all_goals
      simp [apply_floppy_op, reconcile_step, hs, remove_floppy, is_template,
            get_vm_floppy_device, hf, htmp]

/-- Witness for C5: an absent-state invocation on a VM without a floppy. -/
theorem apply_no_ops_no_submit_witness :
    apply_floppy_op
        { state := "absent", type := none, image_file := none, start_connected := false }
        { template := false, powerState := PowerState.poweredOff, floppy := none,
          sio := none }
        SubmitResult.success =
      { outcome := ApplyOutcome.result false false none, submitted := none } :=
  (apply_no_ops_no_submit
      { state := "absent", type := none, image_file := none, start_connected := false }
      { template := false, powerState := PowerState.poweredOff, floppy := none,
        sio := none }
      SubmitResult.success
      { change_detected := false, deviceChange := [] }).2 rfl rfl

/-- C6: on a template VM, both target states are silent no-ops for every
descriptor whose kind is one of the three enumerated values:
`{changed: false, failed: false}`, nothing submitted, never an error. -/
theorem template_apply_noop (p : ModuleParams) (vm : VM) (s : SubmitResult)
    (ht : vm.template = true)
    (hs : p.state = "absent" ∨
          (p.state = "present" ∧
            (p.type = some "none" ∨ p.type = some "client" ∨ p.type = some "flp"))) :
    apply_floppy_op p vm s =
      { outcome := ApplyOutcome.result false false none, submitted := none } := by
  rcases hs with hs | ⟨hs, hty⟩
  · simp [apply_floppy_op, reconcile_step, hs, remove_floppy, is_template, ht]
  · rcases hty with hty | hty | hty
    all_goals
      simp [apply_floppy_op, reconcile_step, hs, hty, truthy, configure_floppy,
            is_template, ht]

/-- Witness for C6: a present-state descriptor of kind `flp` applied to a
template VM. -/
theorem template_apply_noop_witness :
    apply_floppy_op
        { state := "present", type := some "flp", image_file := some "[ds1] a.flp",
          start_connected := true }
        { template := true, powerState := PowerState.poweredOn,
          floppy := none, sio := none }
        SubmitResult.success =
      { outcome := ApplyOutcome.result false false none, submitted := none } :=
  template_apply_noop
    { state := "present", type := some "flp", image_file := some "[ds1] a.flp",
      start_connected := true }
    { template := true, powerState := PowerState.poweredOn, floppy := none, sio := none }
    SubmitResult.success rfl (Or.inr ⟨rfl, Or.inr (Or.inr rfl)⟩)

/-- C7: a present-state reconciliation of a non-template VM with neither a
floppy device nor an SIO controller emits exactly an `AddController`
operation followed by an `AddDevice` operation whose `controllerKey`
references the new controller, in that order. -/
theorem configure_floppy_controller_then_device (p : ModuleParams) (vm : VM)
    (htmp : vm.template = false) (hf : vm.floppy = none) (hs : vm.sio = none) :
    ∃ c fd,
      configure_floppy p (some vm) { change_detected := false, deviceChange := [] } =
        { change_detected := true,
          deviceChange :=
            [{ operation := Operation.add, device := SpecDevice.sio c },
             { operation := Operation.add, device := SpecDevice.floppy fd }] } ∧
      fd.controllerKey = c.key := by
  by_cases hp : vm_powered_on (some vm)
  · refine ⟨{ key := 0, busNumber := 0 }, created_floppy_on p 0, ?_, rfl⟩
    simp [configure_floppy, is_template, get_vm_floppy_device, get_vm_sio_device,
          htmp, hf, hs, hp, create_sio_controller, create_floppy,
          floppy_update_conn, created_floppy_on]
  · refine ⟨{ key := 0, busNumber := 0 }, created_floppy_off p 0, ?_, rfl⟩
    simp [configure_floppy, is_template, get_vm_floppy_device, get_vm_sio_device,
          htmp, hf, hs, hp, create_sio_controller, create_floppy,
          floppy_update_conn, created_floppy_off]

/-- Witness for C7: a concrete `flp` descriptor against a powered-off VM
with no devices. -/
theorem configure_floppy_controller_then_device_witness :
    ∃ c fd,
      configure_floppy
          { state := "present", type := some "flp",
            image_file := some "[datastore1] base.flp", start_connected := true }
          (some { template := false, powerState := PowerState.poweredOff,
                  floppy := none, sio := none })
          { change_detected := false, deviceChange := [] } =
        { change_detected := true,
          deviceChange :=
            [{ operation := Operation.add, device := SpecDevice.sio c },
             { operation := Operation.add, device := SpecDevice.floppy fd }] } ∧
      fd.controllerKey = c.key :=
  configure_floppy_controller_then_device
    { state := "present", type := some "flp",
      image_file := some "[datastore1] base.flp", start_connected := true }
    { template := false, powerState := PowerState.poweredOff, floppy := none, sio := none }
    rfl rfl rfl

/-- Counterexample to C8 as stated: when the remote rejects the submission
via a `RestrictedVersion` fault raised at submit time (the claim's own
example), the module exits through `fail_json`, whose reported result does
not carry `changed = true`, and the message is not the remote message
verbatim but the remote message inside a fixed wrapper. -/
theorem restricted_version_not_changed_true :
    (apply_floppy_op c8_params c8_vm
        (SubmitResult.restrictedVersion "Licensing restriction")).submitted ≠ none ∧
    changedOf (apply_floppy_op c8_params c8_vm
        (SubmitResult.restrictedVersion "Licensing restriction")).outcome = false ∧
    (apply_floppy_op c8_params c8_vm
        (SubmitResult.restrictedVersion "Licensing restriction")).outcome =
      ApplyOutcome.failJson
        "Failed to reconfigure virtual machine due to product versioning restrictions: Licensing restriction" := by
  refine ⟨?_, rfl, rfl⟩
  intro h
  simp [apply_floppy_op, c8_params, c8_vm, reconcile_step, truthy, configure_floppy,
        is_template, get_vm_floppy_device, get_vm_sio_device] at h

/-- C8 amended: when a change-set was accumulated and submitted, a job that
terminates in the error state yields `{changed: true, failed: true}` with
the remote message verbatim; a `RestrictedVersion` fault raised at submit
time instead exits through `fail_json` with the remote message embedded in
a fixed wrapper, and `changed` is not reported true. -/
theorem remote_rejection_result (p : ModuleParams) (vm : VM) (cfg : ConfigState)
    (m : String)
    (h : reconcile_step p vm = ReconcileStep.ok cfg)
    (hc : cfg.change_detected = true) :
    apply_floppy_op p vm (SubmitResult.taskError m) =
      { outcome := ApplyOutcome.result true true (some m),
        submitted := some cfg.deviceChange } ∧
    apply_floppy_op p vm (SubmitResult.restrictedVersion m) =
      { outcome := ApplyOutcome.failJson
          ("Failed to reconfigure virtual machine due to product versioning restrictions: " ++ m),
        submitted := some cfg.deviceChange } ∧
    changedOf (apply_floppy_op p vm (SubmitResult.restrictedVersion m)).outcome = false := by
  refine ⟨?_, ?_, ?_⟩
  all_goals simp [apply_floppy_op, h, hc, changedOf]

/-- Witness for the amended C8 at a concrete accumulated change-set. -/
theorem remote_rejection_result_witness :
    apply_floppy_op c8_params c8_vm (SubmitResult.taskError "The operation is not supported") =
      { outcome := ApplyOutcome.result true true (some "The operation is not supported"),
        submitted := some (reconcile_change_set_c8) } ∧
    apply_floppy_op c8_params c8_vm
        (SubmitResult.restrictedVersion "The operation is not supported") =
      { outcome := ApplyOutcome.failJson
          ("Failed to reconfigure virtual machine due to product versioning restrictions: " ++
            "The operation is not supported"),
        submitted := some (reconcile_change_set_c8) } ∧
    changedOf (apply_floppy_op c8_params c8_vm
        (SubmitResult.restrictedVersion "The operation is not supported")).outcome = false :=
  remote_rejection_result c8_params c8_vm
    { change_detected := true, deviceChange := reconcile_change_set_c8 }
    "The operation is not supported" rfl rfl

/-- C9: the argument-spec default for `type` is `None` rather than the
string `"none"`, so a default invocation with `state=present` always fails
validation with the message `type is mandatory`, before the remote
mutation endpoint is contacted. -/
theorem default_invocation_type_mandatory (vm : VM) (s : SubmitResult) :
    default_invocation_params.type = none ∧
    apply_floppy_op default_invocation_params vm s =
      { outcome := ApplyOutcome.failJson "type is mandatory", submitted := none } := by
  constructor
  · rfl
  · simp [apply_floppy_op, reconcile_step, default_invocation_params, truthy]

/-- C10: when a new floppy is created on a VM that is not powered on, the
emitted add-spec carries `startConnected = (type != "none")`, and the whole
reconciliation output is independent of the `start_connected` parameter. -/
theorem create_startConnected_ignores_param (p : ModuleParams) (vm : VM)
    (htmp : vm.template = false) (hf : vm.floppy = none)
    (hp : vm.powerState ≠ PowerState.poweredOn) :
    (∃ pre fd,
      configure_floppy p (some vm) { change_detected := false, deviceChange := [] } =
        { change_detected := true,
          deviceChange := pre ++
            [{ operation := Operation.add, device := SpecDevice.floppy fd }] } ∧
      fd.connectable.startConnected = !(p.type == some "none")) ∧
    (∀ b : Bool,
      configure_floppy { p with start_connected := b } (some vm)
          { change_detected := false, deviceChange := [] } =
        configure_floppy p (some vm) { change_detected := false, deviceChange := [] }) := by
  have hpon : vm_powered_on (some vm) = false := by
    cases hpw : vm.powerState with
    | poweredOn => exact absurd hpw hp
    | poweredOff => simp [vm_powered_on, isPoweredOn, hpw]
    | suspended => simp [vm_powered_on, isPoweredOn, hpw]
  constructor
  · cases hsio : vm.sio with
    | none =>
      refine ⟨[create_sio_controller], created_floppy_off p 0, ?_, rfl⟩
      simp [configure_floppy, is_template, get_vm_floppy_device, get_vm_sio_device,
            htmp, hf, hsio, hpon, create_floppy, created_floppy_off]
    | some c =>
      refine ⟨[], created_floppy_off p c.key, ?_, rfl⟩
      simp [configure_floppy, is_template, get_vm_floppy_device, get_vm_sio_device,
            htmp, hf, hsio, hpon, create_floppy, created_floppy_off]
  · intro b
    cases hsio : vm.sio
    all_goals
      simp [configure_floppy, is_template, get_vm_floppy_device, get_vm_sio_device,
            htmp, hf, hsio, hpon, create_floppy]

/-- Witness for C10: creation on a powered-off VM with type `client`; the
spec records `startConnected = true` although the parameter is false, and
flipping the parameter changes nothing. -/
theorem create_startConnected_ignores_param_witness :
    (∃ pre fd,
      configure_floppy
          { state := "present", type := some "client", image_file := none,
            start_connected := false }
          (some { template := false, powerState := PowerState.poweredOff,
                  floppy := none, sio := some { key := 7, busNumber := 0 } })
          { change_detected := false, deviceChange := [] } =
        { change_detected := true,
          deviceChange := pre ++
            [{ operation := Operation.add, device := SpecDevice.floppy fd }] } ∧
      fd.connectable.startConnected =
        !((some "client" : Option String) == some "none")) ∧
    (∀ b : Bool,
      configure_floppy
          { state := "present", type := some "client", image_file := none,
            start_connected := b }
          (some { template := false, powerState := PowerState.poweredOff,
                  floppy := none, sio := some { key := 7, busNumber := 0 } })
          { change_detected := false, deviceChange := [] } =
        configure_floppy
          { state := "present", type := some "client", image_file := none,
            start_connected := false }
          (some { template := false, powerState := PowerState.poweredOff,
                  floppy := none, sio := some { key := 7, busNumber := 0 } })
          { change_detected := false, deviceChange := [] }) :=
  create_startConnected_ignores_param
    { state := "present", type := some "client", image_file := none,
      start_connected := false }
    { template := false, powerState := PowerState.poweredOff, floppy := none,
      sio := some { key := 7, busNumber := 0 } }
    rfl rfl (by decide)

end GuestFloppy
